import Mathlib

/-!
Shallow embedding of the reporting/aggregation core of the student-manager
application (src/app.py) together with proofs of the specification claims.

Modelling conventions:
* SQLite REAL (FLOAT) columns are modelled as `Rat`, INTEGER columns as
  `Nat`/`Int`, TEXT columns as `String`, BOOLEAN as `Bool`.
* DATE columns are modelled as day numbers (`Nat`); day 0 is taken to be a
  Monday, so the weekday name of day `d` is `weekdayNames[d % 7]`.
* Each table is a list of row structures inside a `DB` record; SQLite
  AUTOINCREMENT ids are modelled with explicit `next_*` counters.
* SQLite compares TEXT by byte order; for the ASCII strings used by the
  program this is exactly lexicographic order on characters, modelled by
  `strLe` below (kernel-reducible, unlike the built-in `String` order).
* `ORDER BY` is modelled by `List.insertionSort` with the corresponding
  comparison relation; SQL leaves tie order unspecified, so any sort is a
  faithful model.
* The password digest (`hashlib.sha256(...).hexdigest()` in the source) is
  kept abstract: the credential functions take the hash function `hp` as a
  parameter, exactly as `hash_password` is used in the source.
-/

namespace StudentManager

/-- Lexicographic (byte-order) comparison on character lists, as SQLite's
memcmp-based TEXT ordering behaves on the ASCII data used by the program. -/
def charsLe : List Char → List Char → Prop
  | [], _ => True
  | _ :: _, [] => False
  | a :: as, b :: bs => a.toNat < b.toNat ∨ (a.toNat = b.toNat ∧ charsLe as bs)

instance : DecidableRel charsLe := fun a b => by
  induction a generalizing b with
  | nil => exact isTrue (by cases b <;> trivial)
  | cons x xs ih =>
    cases b with
    | nil => exact isFalse (by simp [charsLe])
    | cons y ys =>
      have : Decidable (charsLe xs ys) := ih ys
      unfold charsLe
      infer_instance

/-- TEXT-column ordering used by SQL `ORDER BY` on string columns. -/
def strLe (a b : String) : Prop := charsLe a.data b.data

instance : DecidableRel strLe := fun a b => by unfold strLe; infer_instance

/-! Row structures: one structure per table created in `init_database`
(src/app.py lines 20-117).  Presentation-only columns (`created_at`,
profile photos) that no claim mentions are kept where a claim's operation
reads or writes them and omitted otherwise. -/

/-- A row of the `users` table. -/
structure UserRow where
  id : Nat
  username : String
  password : String
  name : String
  email : String
  phone : String
deriving DecidableEq

/-- A row of the `students` (profile) table. -/
structure StudentRow where
  id : Nat
  user_id : Nat
  name : String
  email : String
  phone : String
  target_study_hours : Nat
  wakeup_time : String
  bedtime : String
deriving DecidableEq

/-- A row of the `subjects` table. -/
structure SubjectRow where
  id : Nat
  user_id : Nat
  subject_name : String
  weightage : Rat
  target_total_hours : Rat
  daily_lecture_hours : Rat
  daily_question_hours : Rat
  difficulty : String
  target_completion_date : String
deriving DecidableEq

/-- A row of the `exercises` table. -/
structure ExerciseRow where
  id : Nat
  user_id : Nat
  exercise_type : String
  day_of_week : String
  duration_minutes : Int
  intensity : String
  notes : String
deriving DecidableEq

/-- A row of the `daily_progress` table; `UNIQUE(user_id, subject_id, date)`. -/
structure ProgressRow where
  user_id : Nat
  subject_id : Nat
  date : Nat
  lecture_hours_actual : Rat
  question_hours_actual : Rat
  questions_solved : Int
  exercise_done : Bool
  exercise_minutes : Int
  mood : String
  notes : String
deriving DecidableEq

/-- A row of the `study_schedule` table. -/
structure ScheduleRow where
  user_id : Nat
  day_of_week : String
  subject_id : Nat
  start_time : String
  end_time : String
  session_type : String
  priority : Nat
deriving DecidableEq

/-- The persistent store (`student_data.db`). -/
structure DB where
  users : List UserRow := []
  students : List StudentRow := []
  subjects : List SubjectRow := []
  exercises : List ExerciseRow := []
  daily_progress : List ProgressRow := []
  study_schedule : List ScheduleRow := []
  next_user_id : Nat := 1
  next_student_id : Nat := 1
  next_subject_id : Nat := 1
deriving DecidableEq

/-- Canonical weekday names, Monday first (matches the `CASE` expression in
`get_study_schedule` and the `days_order` list in the source). -/
def weekdayNames : List String :=
  ["Monday", "Tuesday", "Wednesday", "Thursday", "Friday", "Saturday", "Sunday"]

/-- `report_date.strftime` of the `%A` directive: weekday name of a day
number, day 0 being a Monday. -/
def dayName (d : Nat) : String := weekdayNames.getD (d % 7) ""

/-! ## Aggregation engine -/

/-- The subject lookup of `calculate_subject_progress`
(src/app.py lines 355-359): `SELECT ... FROM subjects WHERE id = ? AND user_id = ?`. -/
def subjectLookup (db : DB) (uid sid : Nat) : Option SubjectRow :=
  db.subjects.find? (fun s => s.id == sid && s.user_id == uid)

/-- All daily-progress rows ever logged for a (user, subject) pair, i.e. the
rows summed by the `SELECT SUM(...) FROM daily_progress WHERE user_id = ?
AND subject_id = ?` query (src/app.py lines 366-370). -/
def progressRowsFor (db : DB) (uid sid : Nat) : List ProgressRow :=
  db.daily_progress.filter (fun r => r.user_id == uid && r.subject_id == sid)

/-- `SUM(lecture_hours_actual)` over a (user, subject); empty sum is 0,
matching `actual[0] or 0` on a NULL SQL sum. -/
def sumLectureHours (db : DB) (uid sid : Nat) : Rat :=
  ((progressRowsFor db uid sid).map (·.lecture_hours_actual)).sum

/-- `SUM(question_hours_actual)` over a (user, subject). -/
def sumQuestionHours (db : DB) (uid sid : Nat) : Rat :=
  ((progressRowsFor db uid sid).map (·.question_hours_actual)).sum

/-- `SUM(questions_solved)` over a (user, subject). -/
def sumQuestionsSolved (db : DB) (uid sid : Nat) : Int :=
  ((progressRowsFor db uid sid).map (·.questions_solved)).sum

/-- `calculate_subject_progress` (src/app.py lines 350-382): returns
`(min(lecture_progress, 100), min(question_progress, 100), total_questions)`,
where each progress is `sum / target_total_hours * 100` when the target is
positive and 0 otherwise, and `(0, 0, 0)` when the subject does not exist. -/
def calculate_subject_progress (db : DB) (uid sid : Nat) : Rat × Rat × Int :=
  match subjectLookup db uid sid with
  | none => (0, 0, 0)
  | some s =>
    let total_lecture_hours := sumLectureHours db uid sid
    let total_question_hours := sumQuestionHours db uid sid
    let total_questions := sumQuestionsSolved db uid sid
    let lecture_progress :=
      if 0 < s.target_total_hours then total_lecture_hours / s.target_total_hours * 100 else 0
    let question_progress :=
      if 0 < s.target_total_hours then total_question_hours / s.target_total_hours * 100 else 0
    (min lecture_progress 100, min question_progress 100, total_questions)

/-! ## Progress store mutations -/

/-- The `UNIQUE(user_id, subject_id, date)` key of `daily_progress`. -/
def dpKey (r : ProgressRow) : Nat × Nat × Nat := (r.user_id, r.subject_id, r.date)

/-- The `INSERT OR REPLACE INTO daily_progress` of the Daily Entry submit
handler (src/app.py lines 1802-1811): any row conflicting on the unique key
is deleted and the new row inserted, a full overwrite. -/
def upsert_daily_progress (db : DB) (row : ProgressRow) : DB :=
  { db with daily_progress :=
      (db.daily_progress.filter (fun r => !(dpKey r == dpKey row))) ++ [row] }

/-- The Add New Subject form submit (src/app.py lines 1243-1269): rejects a
name already present for the same user (`SELECT COUNT(*) ... > 0`), otherwise
inserts the row.  Returns the new store and whether a row was inserted. -/
def add_subject (db : DB) (uid : Nat) (name : String) (w t dl dq : Rat)
    (diff td : String) : DB × Bool :=
  if 0 < (db.subjects.filter
      (fun s => s.user_id == uid && s.subject_name == name)).length then
    (db, false)
  else
    ({ db with
        subjects := db.subjects ++
          [⟨db.next_subject_id, uid, name, w, t, dl, dq, diff, td⟩],
        next_subject_id := db.next_subject_id + 1 }, true)

/-- The edit-subject `UPDATE subjects SET ... WHERE id = ? AND user_id = ?`
(src/app.py lines 1160-1172).  Note: no duplicate-name check. -/
def update_subject (db : DB) (sid uid : Nat) (name : String) (w t dl dq : Rat)
    (diff td : String) : DB :=
  { db with subjects := db.subjects.map (fun s =>
      if s.id == sid && s.user_id == uid then
        { s with subject_name := name, weightage := w, target_total_hours := t,
                 daily_lecture_hours := dl, daily_question_hours := dq,
                 difficulty := diff, target_completion_date := td }
      else s) }

/-- `DELETE FROM subjects WHERE id = ? AND user_id = ?`
(src/app.py lines 1178-1184).  Touches no other table. -/
def delete_subject (db : DB) (sid uid : Nat) : DB :=
  { db with subjects :=
      db.subjects.filter (fun s => !(s.id == sid && s.user_id == uid)) }

/-- The per-user uniqueness invariant on subject names (spec section 3). -/
def subjectNamesUnique (db : DB) (uid : Nat) : Prop :=
  ((db.subjects.filter (fun s => s.user_id == uid)).map (·.subject_name)).Nodup

instance (db : DB) (uid : Nat) : Decidable (subjectNamesUnique db uid) := by
  unfold subjectNamesUnique; infer_instance

/-! ## Daily report (src/app.py lines 384-463) -/

/-- The `ORDER BY weightage DESC, subject_name` relation of the subject
query in `get_daily_report`. -/
def subjLe (a b : SubjectRow) : Prop :=
  b.weightage < a.weightage ∨
    (a.weightage = b.weightage ∧ strLe a.subject_name b.subject_name)

instance : DecidableRel subjLe := fun a b => by unfold subjLe; infer_instance

/-- The subjects of a user in the report order. -/
def orderedSubjects (db : DB) (uid : Nat) : List SubjectRow :=
  List.insertionSort subjLe (db.subjects.filter (fun s => s.user_id == uid))

/-- The per-(user, subject, date) lookup inside the report loop
(src/app.py lines 416-421): the row of `daily_progress` for that key. -/
def dailyLookup (db : DB) (uid sid d : Nat) : Option ProgressRow :=
  db.daily_progress.find?
    (fun r => r.user_id == uid && r.subject_id == sid && r.date == d)

/-- One element of `subjects_progress`: the subject columns joined with the
day's progress columns, all progress columns `None` when no row exists
(src/app.py lines 412-434). -/
structure SubjProg where
  sub_id : Nat
  sub_name : String
  daily_lecture : Rat
  daily_question : Rat
  lecture_actual : Option Rat
  question_actual : Option Rat
  questions_solved : Option Int
  exercise_done : Option Bool
  exercise_minutes : Option Int
  mood : Option String
  notes : Option String
deriving DecidableEq

/-- Builds one `subjects_progress` entry for a subject. -/
def mkSubjProg (db : DB) (uid d : Nat) (s : SubjectRow) : SubjProg :=
  match dailyLookup db uid s.id d with
  | some p =>
    ⟨s.id, s.subject_name, s.daily_lecture_hours, s.daily_question_hours,
      some p.lecture_hours_actual, some p.question_hours_actual,
      some p.questions_solved, some p.exercise_done, some p.exercise_minutes,
      some p.mood, some p.notes⟩
  | none =>
    ⟨s.id, s.subject_name, s.daily_lecture_hours, s.daily_question_hours,
      none, none, none, none, none, none, none⟩

/-- The `totals` dictionary of the daily report. -/
structure ReportTotals where
  lecture_target : Rat
  question_target : Rat
  lecture_actual : Rat
  question_actual : Rat
  questions : Int
deriving DecidableEq

/-- The return value of `get_daily_report`. -/
structure DailyReport where
  subjects : List SubjProg
  exercises : List (String × Int × String × String)
  totals : ReportTotals
deriving DecidableEq

/-- The totals computation (src/app.py lines 445-449): target totals sum the
per-subject daily targets over every subject; actual totals sum only the
non-`None` actuals (`s[k] or 0 ... if s[k] is not None`). -/
def reportTotals (sp : List SubjProg) : ReportTotals :=
  { lecture_target := (sp.map (·.daily_lecture)).sum,
    question_target := (sp.map (·.daily_question)).sum,
    lecture_actual := (sp.filterMap (·.lecture_actual)).sum,
    question_actual := (sp.filterMap (·.question_actual)).sum,
    questions := (sp.filterMap (·.questions_solved)).sum }

/-- `get_daily_report` (src/app.py lines 384-463).  With no subjects it
returns empty lists and zero totals; otherwise one `subjects_progress` entry
per subject, the day's planned exercises (matched by weekday name) and the
totals. -/
def get_daily_report (db : DB) (uid d : Nat) : DailyReport :=
  let subjects := orderedSubjects db uid
  if subjects = [] then
    { subjects := [], exercises := [], totals := ⟨0, 0, 0, 0, 0⟩ }
  else
    let sp := subjects.map (mkSubjProg db uid d)
    let exs := (db.exercises.filter
        (fun e => e.user_id == uid && e.day_of_week == dayName d)).map
      (fun e => (e.exercise_type, e.duration_minutes, e.intensity, e.notes))
    { subjects := sp, exercises := exs, totals := reportTotals sp }

/-! ## Weekly / range analysis (src/app.py lines 465-524) -/

/-- The per-date aggregate row produced by the `GROUP BY date` query:
`(date, total_lecture, total_question, total_questions, subjects_studied)`. -/
def dailyAgg (rows : List ProgressRow) (dt : Nat) : Nat × Rat × Rat × Int × Nat :=
  let drows := rows.filter (fun r => r.date == dt)
  (dt, (drows.map (·.lecture_hours_actual)).sum,
    (drows.map (·.question_hours_actual)).sum,
    (drows.map (·.questions_solved)).sum,
    ((drows.map (·.subject_id)).dedup).length)

/-- The `ORDER BY total_lecture + total_question DESC` relation of the
per-subject query. -/
def weeklySubjGe (a b : String × Rat × Rat × Int × Nat) : Prop :=
  b.2.1 + b.2.2.1 ≤ a.2.1 + a.2.2.1

instance : DecidableRel weeklySubjGe := fun a b => by
  unfold weeklySubjGe; infer_instance

/-- `get_weekly_analysis` (src/app.py lines 465-524).  First component: the
per-date aggregates (dates having at least one row, ascending), each paired
positionally with the exercise indicator of the corresponding index in the
day-by-day exercise scan of the full range; missing indices pair with 0.0.
Second component: the per-subject left-joined range totals ordered by total
hours descending. -/
def get_weekly_analysis (db : DB) (uid startD endD : Nat) :
    List (Nat × Rat × Rat × Int × Nat × Rat) ×
      List (String × Rat × Rat × Int × Nat) :=
  let rows := db.daily_progress.filter
    (fun r => r.user_id == uid && startD ≤ r.date && r.date ≤ endD)
  let dates := List.insertionSort (· ≤ ·) ((rows.map (·.date)).dedup)
  let daily_data := dates.map (dailyAgg rows)
  let exercise_data := (List.range (endD + 1 - startD)).map (fun i =>
    let dt := startD + i
    let xrows := db.daily_progress.filter
      (fun r => r.user_id == uid && r.date == dt && r.exercise_done)
    (decide (0 < xrows.length), (xrows.map (·.exercise_minutes)).sum))
  let daily_with_exercise := daily_data.enum.map (fun p =>
    let ex := exercise_data.getD p.1 (false, 0)
    (p.2.1, p.2.2.1, p.2.2.2.1, p.2.2.2.2.1, p.2.2.2.2.2,
      if ex.1 then (1 : Rat) else 0))
  let subject_data := List.insertionSort weeklySubjGe
    ((db.subjects.filter (fun s => s.user_id == uid)).map (fun s =>
      let srows := db.daily_progress.filter
        (fun r => r.subject_id == s.id && startD ≤ r.date && r.date ≤ endD &&
          r.user_id == uid)
      (s.subject_name, (srows.map (·.lecture_hours_actual)).sum,
        (srows.map (·.question_hours_actual)).sum,
        (srows.map (·.questions_solved)).sum,
        ((srows.map (·.date)).dedup).length)))
  (daily_with_exercise, subject_data)

/-! ## Credential store (src/app.py lines 319-325, 672-740) -/

/-- `verify_password` (src/app.py lines 323-325): hash-to-hash comparison,
with the digest function `hp` abstract. -/
def verify_password (hp : String → String) (stored provided : String) : Bool :=
  stored == hp provided

/-- `register_user` (src/app.py lines 672-704): rejects an existing
username before inserting anything; otherwise inserts the user row with the
hashed password and the linked `students` profile row with defaults
`(6, 07:00, 23:00)` in one transaction. -/
def register_user (hp : String → String) (db : DB)
    (username password name email phone : String) : DB × Bool × String :=
  if db.users.any (fun u => u.username == username) then
    (db, false, "Username already exists")
  else
    let uid := db.next_user_id
    ({ db with
        users := db.users ++ [⟨uid, username, hp password, name, email, phone⟩],
        students := db.students ++
          [⟨db.next_student_id, uid, name, email, phone, 6, "07:00", "23:00"⟩],
        next_user_id := uid + 1,
        next_student_id := db.next_student_id + 1 },
      true, "Registration successful")

/-- The outcome of `login_user`: the generic failure message, or the session
dictionary `(user_id, student_id, username, name)`. -/
inductive LoginResult where
  | failure (msg : String)
  | success (user_id : Nat) (student_id : Option Nat) (username name : String)
deriving DecidableEq

/-- `login_user` (src/app.py lines 706-740): looks the user up by username;
an absent user and a failed hash comparison both return the same
`Invalid username or password` failure. -/
def login_user (hp : String → String) (db : DB)
    (username password : String) : LoginResult :=
  match db.users.find? (fun u => u.username == username) with
  | none => .failure ("Invalid username or password")
  | some u =>
    if verify_password hp u.password password then
      .success u.id
        ((db.students.find? (fun s => s.user_id == u.id)).map (·.id))
        username u.name
    else
      .failure ("Invalid username or password")

/-! ## Schedule resolver (src/app.py lines 563-590 and 2239-2272) -/

/-- The `CASE ss.day_of_week ... END` weekday index of `get_study_schedule`;
a name outside the seven cases yields SQL NULL, which sorts before every
number in ascending order, modelled here as index 0. -/
def dayIdx : String → Nat
  | "Monday" => 1
  | "Tuesday" => 2
  | "Wednesday" => 3
  | "Thursday" => 4
  | "Friday" => 5
  | "Saturday" => 6
  | "Sunday" => 7
  | _ => 0

/-- One row returned by `get_study_schedule`. -/
structure ScheduleOut where
  day_of_week : String
  subject_name : String
  start_time : String
  end_time : String
  session_type : String
  priority : Nat
deriving DecidableEq

/-- The `ORDER BY` relation of `get_study_schedule`: weekday index, then
priority ascending, then start time ascending. -/
def schedLe (a b : ScheduleOut) : Prop :=
  dayIdx a.day_of_week < dayIdx b.day_of_week ∨
    (dayIdx a.day_of_week = dayIdx b.day_of_week ∧
      (a.priority < b.priority ∨
        (a.priority = b.priority ∧ strLe a.start_time b.start_time)))

instance : DecidableRel schedLe := fun a b => by unfold schedLe; infer_instance

/-- The `FROM study_schedule ss JOIN subjects s ON ss.subject_id = s.id
WHERE ss.user_id = ?` inner join of `get_study_schedule`: a slot whose
subject id resolves to no subject contributes no row. -/
def scheduleJoinRows (db : DB) (uid : Nat) : List ScheduleOut :=
  (db.study_schedule.filter (fun ss => ss.user_id == uid)).flatMap (fun ss =>
    (db.subjects.filter (fun s => s.id == ss.subject_id)).map (fun s =>
      ⟨ss.day_of_week, s.subject_name, ss.start_time, ss.end_time,
        ss.session_type, ss.priority⟩))

/-- `get_study_schedule` (src/app.py lines 563-590). -/
def get_study_schedule (db : DB) (uid : Nat) : List ScheduleOut :=
  List.insertionSort schedLe (scheduleJoinRows db uid)

/-- One tuple of `schedule_data` in the Save Study Schedule form. -/
structure ScheduleItem where
  day : String
  subject : String
  start_time : String
  end_time : String
  session_type : String

/-- The Save Study Schedule submit handler (src/app.py lines 2239-2272):
deletes the user's entire schedule, then re-inserts each item whose subject
name still resolves (silently skipping the rest), deriving priority from the
session label (Morning 1, Afternoon 2, otherwise 3). -/
def save_study_schedule (db : DB) (uid : Nat) (items : List ScheduleItem) : DB :=
  let cleared := db.study_schedule.filter (fun ss => !(ss.user_id == uid))
  let newRows := items.filterMap (fun it =>
    if it.subject = "" then none
    else
      (db.subjects.find?
          (fun s => s.subject_name == it.subject && s.user_id == uid)).map
        (fun s =>
          ({ user_id := uid, day_of_week := it.day, subject_id := s.id,
             start_time := it.start_time, end_time := it.end_time,
             session_type := it.session_type,
             priority :=
               if it.session_type == "Morning" then 1
               else if it.session_type == "Afternoon" then 2 else 3 } :
            ScheduleRow)))
  { db with study_schedule := cleared ++ newRows }

/-! ## Schema manager (src/app.py lines 119-193) -/

/-- The live column sets of the five tables inspected by `repair_database`;
`none` models a table absent from `sqlite_master`. -/
structure SchemaState where
  students : Option (List String)
  subjects : Option (List String)
  exercises : Option (List String)
  daily_progress : Option (List String)
  study_schedule : Option (List String)
deriving DecidableEq

/-- Whether `ALTER TABLE t ADD COLUMN name ctype` can succeed in SQLite:
adding a column whose declared DEFAULT is non-constant is rejected
(`Cannot add a column with non-constant default`, an `OperationalError`).
Among the repair column types used by the source (lines 126-162) exactly
the `TIMESTAMP DEFAULT CURRENT_TIMESTAMP` entries have a non-constant
default; every other entry has a constant default or none. -/
def alterAddable (ctype : String) : Bool :=
  !(ctype == "TIMESTAMP DEFAULT CURRENT_TIMESTAMP")

/-- The inner column loop of `repair_database` (src/app.py lines 178-185):
the `not in existing_columns` test uses the column list captured before the
loop (`orig`); the `ALTER` is attempted inside `try`, and any
`OperationalError` — a duplicate column, or a non-constant default such as
`CURRENT_TIMESTAMP` (see `alterAddable`) — is swallowed with no event and
no column added; each successful addition appends a `Added c to t` event. -/
def addCols (tname : String) (orig : List String) :
    List String → List String → List (String × String) →
      List String × List String
  | tcols, evs, [] => (tcols, evs)
  | tcols, evs, c :: rest =>
    if c.1 ∈ orig then addCols tname orig tcols evs rest
    else if c.1 ∈ tcols then addCols tname orig tcols evs rest
    else if alterAddable c.2 then
      addCols tname orig (tcols ++ [c.1])
        (evs ++ ["Added " ++ c.1 ++ " to " ++ tname]) rest
    else addCols tname orig tcols evs rest

/-- One table's pass of `repair_database`: an absent table is skipped
(src/app.py lines 169-171). -/
def repairTable (tname : String) (cols : List (String × String)) :
    Option (List String) → Option (List String) × List String
  | none => (none, [])
  | some existing =>
    let r := addCols tname existing existing [] cols
    (some r.1, r.2)

/-- Required columns for `students` (src/app.py lines 126-134). -/
def studentsRepairCols : List (String × String) :=
  [("user_id", "INTEGER DEFAULT 1"), ("target_study_hours", "INTEGER DEFAULT 6"),
   ("wakeup_time", "TEXT DEFAULT \"07:00\""), ("bedtime", "TEXT DEFAULT \"23:00\""),
   ("photo", "TEXT"), ("email", "TEXT"), ("phone", "TEXT")]

/-- Required columns for `subjects` (src/app.py lines 135-144). -/
def subjectsRepairCols : List (String × String) :=
  [("user_id", "INTEGER DEFAULT 1"), ("weightage", "FLOAT DEFAULT 1.0"),
   ("target_total_hours", "FLOAT DEFAULT 100.0"),
   ("daily_lecture_hours", "FLOAT DEFAULT 2.0"),
   ("daily_question_hours", "FLOAT DEFAULT 1.0"),
   ("difficulty", "TEXT DEFAULT \"Medium\""),
   ("target_completion_date", "DATE"),
   ("created_at", "TIMESTAMP DEFAULT CURRENT_TIMESTAMP")]

/-- Required columns for `exercises` (src/app.py lines 145-151). -/
def exercisesRepairCols : List (String × String) :=
  [("user_id", "INTEGER DEFAULT 1"), ("duration_minutes", "INTEGER DEFAULT 30"),
   ("intensity", "TEXT DEFAULT \"Moderate\""), ("notes", "TEXT"),
   ("created_at", "TIMESTAMP DEFAULT CURRENT_TIMESTAMP")]

/-- Required columns for `daily_progress` (src/app.py lines 152-157). -/
def dailyProgressRepairCols : List (String × String) :=
  [("user_id", "INTEGER DEFAULT 1"), ("mood", "TEXT DEFAULT \"🙂 Good\""),
   ("notes", "TEXT"),
   ("created_at", "TIMESTAMP DEFAULT CURRENT_TIMESTAMP")]

/-- Required columns for `study_schedule` (src/app.py lines 158-162). -/
def studyScheduleRepairCols : List (String × String) :=
  [("user_id", "INTEGER DEFAULT 1"), ("priority", "INTEGER DEFAULT 1"),
   ("created_at", "TIMESTAMP DEFAULT CURRENT_TIMESTAMP")]

/-- `repair_database` (src/app.py lines 119-193): adds each required column
missing from each existing table, returning the repaired schema and the
`repairs_made` event list in table order. -/
def repair_database (st : SchemaState) : SchemaState × List String :=
  let r1 := repairTable ("students") studentsRepairCols st.students
  let r2 := repairTable ("subjects") subjectsRepairCols st.subjects
  let r3 := repairTable ("exercises") exercisesRepairCols st.exercises
  let r4 := repairTable ("daily_progress") dailyProgressRepairCols st.daily_progress
  let r5 := repairTable ("study_schedule") studyScheduleRepairCols st.study_schedule
  (⟨r1.1, r2.1, r3.1, r4.1, r5.1⟩, r1.2 ++ r2.2 ++ r3.2 ++ r4.2 ++ r5.2)

/-! ## Order infrastructure lemmas -/

theorem charsLe_total : ∀ as bs : List Char, charsLe as bs ∨ charsLe bs as := by
  intro as
  induction as with
  | nil => intro bs; left; trivial
  | cons a as ih =>
    intro bs
    cases bs with
    | nil => right; trivial
    | cons b bs =>
      rcases Nat.lt_trichotomy a.toNat b.toNat with h | h | h
      · left; exact Or.inl h
      · rcases ih bs with h2 | h2
        · left; exact Or.inr ⟨h, h2⟩
        · right; exact Or.inr ⟨h.symm, h2⟩
      · right; exact Or.inl h

theorem charsLe_trans :
    ∀ as bs cs : List Char, charsLe as bs → charsLe bs cs → charsLe as cs := by
  intro as
  induction as with
  | nil => intro bs cs _ _; trivial
  | cons a as ih =>
    intro bs cs hab hbc
    cases bs with
    | nil => exact absurd hab (by simp [charsLe])
    | cons b bs =>
      cases cs with
      | nil => exact absurd hbc (by simp [charsLe])
      | cons c cs =>
        rcases hab with hab | ⟨hab, hab2⟩
        · rcases hbc with hbc | ⟨hbc, _⟩
          · exact Or.inl (Nat.lt_trans hab hbc)
          · exact Or.inl (hbc ▸ hab)
        · rcases hbc with hbc | ⟨hbc, hbc2⟩
          · exact Or.inl (hab ▸ hbc)
          · exact Or.inr ⟨hab.trans hbc, ih bs cs hab2 hbc2⟩

theorem strLe_total (a b : String) : strLe a b ∨ strLe b a :=
  charsLe_total a.data b.data

theorem strLe_trans {a b c : String} (h1 : strLe a b) (h2 : strLe b c) :
    strLe a c :=
  charsLe_trans a.data b.data c.data h1 h2

instance : IsTotal SubjectRow subjLe := by
  constructor
  intro a b
  unfold subjLe
  rcases lt_trichotomy a.weightage b.weightage with h | h | h
  · right; exact Or.inl h
  · rcases strLe_total a.subject_name b.subject_name with h2 | h2
    · left; exact Or.inr ⟨h, h2⟩
    · right; exact Or.inr ⟨h.symm, h2⟩
  · left; exact Or.inl h

instance : IsTrans SubjectRow subjLe := by
  constructor
  intro a b c hab hbc
  unfold subjLe at *
  rcases hab with hab | ⟨hab, hab2⟩
  · rcases hbc with hbc | ⟨hbc, _⟩
    · exact Or.inl (lt_trans hbc hab)
    · exact Or.inl (hbc ▸ hab)
  · rcases hbc with hbc | ⟨hbc, hbc2⟩
    · exact Or.inl (hab ▸ hbc)
    · exact Or.inr ⟨hab.trans hbc, strLe_trans hab2 hbc2⟩

instance : IsTotal ScheduleOut schedLe := by
  constructor
  intro a b
  unfold schedLe
  rcases Nat.lt_trichotomy (dayIdx a.day_of_week) (dayIdx b.day_of_week) with h | h | h
  · left; exact Or.inl h
  · rcases Nat.lt_trichotomy a.priority b.priority with h2 | h2 | h2
    · left; exact Or.inr ⟨h, Or.inl h2⟩
    · rcases strLe_total a.start_time b.start_time with h3 | h3
      · left; exact Or.inr ⟨h, Or.inr ⟨h2, h3⟩⟩
      · right; exact Or.inr ⟨h.symm, Or.inr ⟨h2.symm, h3⟩⟩
    · right; exact Or.inr ⟨h.symm, Or.inl h2⟩
  · right; exact Or.inl h

instance : IsTrans ScheduleOut schedLe := by
  constructor
  intro a b c hab hbc
  unfold schedLe at *
  rcases hab with hab | ⟨hab, hab2⟩
  · rcases hbc with hbc | ⟨hbc, _⟩
    · exact Or.inl (Nat.lt_trans hab hbc)
    · exact Or.inl (hbc ▸ hab)
  · rcases hbc with hbc | ⟨hbc, hbc2⟩
    · exact Or.inl (hab ▸ hbc)
    · refine Or.inr ⟨hab.trans hbc, ?_⟩
      rcases hab2 with h2 | ⟨h2, h2b⟩
      · rcases hbc2 with h3 | ⟨h3, _⟩
        · exact Or.inl (Nat.lt_trans h2 h3)
        · exact Or.inl (h3 ▸ h2)
      · rcases hbc2 with h3 | ⟨h3, h3b⟩
        · exact Or.inl (h2 ▸ h3)
        · exact Or.inr ⟨h2.trans h3, strLe_trans h2b h3b⟩

instance : IsTotal (String × Rat × Rat × Int × Nat) weeklySubjGe :=
  ⟨fun a b => le_total (b.2.1 + b.2.2.1) (a.2.1 + a.2.2.1)⟩

instance : IsTrans (String × Rat × Rat × Int × Nat) weeklySubjGe :=
  ⟨fun _ _ _ hab hbc => le_trans hbc hab⟩

/-- Filtering by a predicate after keeping only its complement yields the
empty list. -/
theorem filter_not_filter {α : Type} (p : α → Bool) (l : List α) :
    (l.filter (fun a => !(p a))).filter p = [] := by
  induction l with
  | nil => rfl
  | cons x xs ih =>
    by_cases hx : p x
    · simp [List.filter_cons, hx, ih]
    · simp [List.filter_cons, hx, ih]

/-! ## C1: subject-progress percentages are clamped to [0, 100] -/

/-- C1.  For every user and subject the subject-progress computation returns
`lecturePct` and `questionPct` clamped to `[0, 100]` no matter how large the
cumulative logged hours grow (hours being nonnegative as logged), with
`lecturePct = min(sumLectureHours / targetTotalHours * 100, 100)` and the
analogous `questionPct` over the same target when the target is positive,
both 0 when the target is zero (or negative, or the subject absent), and the
lifetime sum of questions solved returned as the third component. -/
theorem subject_progress_clamped (db : DB) (uid sid : Nat)
    (h : ∀ r ∈ db.daily_progress,
      0 ≤ r.lecture_hours_actual ∧ 0 ≤ r.question_hours_actual) :
    (0 ≤ (calculate_subject_progress db uid sid).1 ∧
      (calculate_subject_progress db uid sid).1 ≤ 100) ∧
    (0 ≤ (calculate_subject_progress db uid sid).2.1 ∧
      (calculate_subject_progress db uid sid).2.1 ≤ 100) ∧
    ∀ s, subjectLookup db uid sid = some s →
      (calculate_subject_progress db uid sid).2.2 = sumQuestionsSolved db uid sid ∧
      (s.target_total_hours ≤ 0 →
        (calculate_subject_progress db uid sid).1 = 0 ∧
        (calculate_subject_progress db uid sid).2.1 = 0) ∧
      (0 < s.target_total_hours →
        (calculate_subject_progress db uid sid).1 =
          min (sumLectureHours db uid sid / s.target_total_hours * 100) 100 ∧
        (calculate_subject_progress db uid sid).2.1 =
          min (sumQuestionHours db uid sid / s.target_total_hours * 100) 100) := by
  have hlec : 0 ≤ sumLectureHours db uid sid := by
    apply List.sum_nonneg
    intro x hx
    rcases List.mem_map.mp hx with ⟨r, hr, hxr⟩
    have := (h r (List.mem_of_mem_filter hr)).1
    rw [← hxr]; exact this
  have hq : 0 ≤ sumQuestionHours db uid sid := by
    apply List.sum_nonneg
    intro x hx
    rcases List.mem_map.mp hx with ⟨r, hr, hxr⟩
    have := (h r (List.mem_of_mem_filter hr)).2
    rw [← hxr]; exact this
  cases hs : subjectLookup db uid sid with
  | none =>
    refine ⟨?_, ?_, ?_⟩
    · simp [calculate_subject_progress, hs]
    · simp [calculate_subject_progress, hs]
    · intro s hss; cases hss
  | some s =>
    by_cases ht : 0 < s.target_total_hours
    · have hlp : 0 ≤ sumLectureHours db uid sid / s.target_total_hours * 100 := by
        positivity
      have hqp : 0 ≤ sumQuestionHours db uid sid / s.target_total_hours * 100 := by
        positivity
      have e1 : (calculate_subject_progress db uid sid).1 =
          min (sumLectureHours db uid sid / s.target_total_hours * 100) 100 := by
        simp [calculate_subject_progress, hs, ht]
      have e2 : (calculate_subject_progress db uid sid).2.1 =
          min (sumQuestionHours db uid sid / s.target_total_hours * 100) 100 := by
        simp [calculate_subject_progress, hs, ht]
      have e3 : (calculate_subject_progress db uid sid).2.2 =
          sumQuestionsSolved db uid sid := by
        simp [calculate_subject_progress, hs]
      refine ⟨⟨?_, ?_⟩, ⟨?_, ?_⟩, ?_⟩
      · rw [e1]; exact le_min hlp (by norm_num)
      · rw [e1]; exact min_le_right _ _
      · rw [e2]; exact le_min hqp (by norm_num)
      · rw [e2]; exact min_le_right _ _
      · intro s2 hs2
        injection hs2 with hseq
        subst hseq
        refine ⟨e3, ?_, ?_⟩
        · intro hle; exact absurd ht (not_lt.mpr hle)
        · intro _; exact ⟨e1, e2⟩
    · have e1 : (calculate_subject_progress db uid sid).1 = 0 := by
        simp [calculate_subject_progress, hs, ht]
      have e2 : (calculate_subject_progress db uid sid).2.1 = 0 := by
        simp [calculate_subject_progress, hs, ht]
      have e3 : (calculate_subject_progress db uid sid).2.2 =
          sumQuestionsSolved db uid sid := by
        simp [calculate_subject_progress, hs]
      refine ⟨⟨?_, ?_⟩, ⟨?_, ?_⟩, ?_⟩
      · rw [e1]
      · rw [e1]; norm_num
      · rw [e2]
      · rw [e2]; norm_num
      · intro s2 hs2
        injection hs2 with hseq
        subst hseq
        refine ⟨e3, ?_, ?_⟩
        · intro _; exact ⟨e1, e2⟩
        · intro hlt; exact absurd hlt ht

/-- Store for the C1 witness: one subject with target 10 and logged hours
far beyond it. -/
def c1DB : DB :=
  { subjects := [⟨1, 1, "Math", 1, 10, 2, 1, "Medium", ""⟩],
    daily_progress := [⟨1, 1, 0, 20, 3, 7, false, 0, "", ""⟩] }

/-- C1 witness: the clamping theorem applied to `c1DB`. -/
theorem subject_progress_clamped_witness :
    (∀ r ∈ c1DB.daily_progress,
      0 ≤ r.lecture_hours_actual ∧ 0 ≤ r.question_hours_actual) ∧
    ((0 ≤ (calculate_subject_progress c1DB 1 1).1 ∧
      (calculate_subject_progress c1DB 1 1).1 ≤ 100) ∧
    (0 ≤ (calculate_subject_progress c1DB 1 1).2.1 ∧
      (calculate_subject_progress c1DB 1 1).2.1 ≤ 100) ∧
    ∀ s, subjectLookup c1DB 1 1 = some s →
      (calculate_subject_progress c1DB 1 1).2.2 = sumQuestionsSolved c1DB 1 1 ∧
      (s.target_total_hours ≤ 0 →
        (calculate_subject_progress c1DB 1 1).1 = 0 ∧
        (calculate_subject_progress c1DB 1 1).2.1 = 0) ∧
      (0 < s.target_total_hours →
        (calculate_subject_progress c1DB 1 1).1 =
          min (sumLectureHours c1DB 1 1 / s.target_total_hours * 100) 100 ∧
        (calculate_subject_progress c1DB 1 1).2.1 =
          min (sumQuestionHours c1DB 1 1 / s.target_total_hours * 100) 100)) :=
  ⟨by decide, subject_progress_clamped c1DB 1 1 (by decide)⟩

/-! ## C2: daily-progress upsert is a full overwrite -/

/-- C2.  Upserting twice for the same `(user, subject, date)` key leaves
exactly one stored row for that key, the second write's row in every field;
the first write's row is gone entirely unless it coincided with the second. -/
theorem upsert_twice_overwrites (db : DB) (r1 r2 : ProgressRow)
    (h : dpKey r1 = dpKey r2) :
    ((upsert_daily_progress (upsert_daily_progress db r1) r2).daily_progress.filter
        (fun r => dpKey r == dpKey r2)) = [r2] ∧
    (r1 ≠ r2 →
      r1 ∉ (upsert_daily_progress (upsert_daily_progress db r1) r2).daily_progress) := by
  constructor
  · show (((upsert_daily_progress db r1).daily_progress.filter
        (fun r => !(dpKey r == dpKey r2))) ++ [r2]).filter
        (fun r => dpKey r == dpKey r2) = [r2]
    rw [List.filter_append, filter_not_filter]
    simp
  · intro hne hmem
    show False
    rcases List.mem_append.mp hmem with hmem | hmem
    · have := (List.mem_filter.mp hmem).2
      simp only [h, Bool.not_eq_true] at this
      simp at this
    · exact hne (by simpa using hmem)

/-- First row of the C2 witness pair. -/
def c2Row1 : ProgressRow := ⟨1, 1, 5, 2, 1, 10, true, 30, "Good", "first"⟩

/-- Second row of the C2 witness pair: same key, every other field changed. -/
def c2Row2 : ProgressRow := ⟨1, 1, 5, 4, 2, 20, false, 0, "Bad", "second"⟩

/-- C2 witness: overwriting upsert applied twice on an initially empty store. -/
theorem upsert_twice_overwrites_witness :
    dpKey c2Row1 = dpKey c2Row2 ∧
    (((upsert_daily_progress (upsert_daily_progress {} c2Row1) c2Row2).daily_progress.filter
        (fun r => dpKey r == dpKey c2Row2)) = [c2Row2] ∧
    (c2Row1 ≠ c2Row2 →
      c2Row1 ∉ (upsert_daily_progress (upsert_daily_progress {} c2Row1)
        c2Row2).daily_progress)) :=
  ⟨by decide, upsert_twice_overwrites {} c2Row1 c2Row2 (by decide)⟩

/-! ## C3: daily report on a date with no progress rows -/

/-- Store for the C3 counterexample: one subject (daily lecture target 2,
daily question target 1) and no progress rows at all. -/
def c3DB : DB :=
  { subjects := [⟨1, 1, "Algebra", 1, 100, 2, 1, "Medium", ""⟩] }

/-- C3 counterexample.  For user 1 and date 0, `c3DB` has zero DailyProgress
rows, yet the daily report's subject list is not empty (it lists the
subject) and the lecture-target total is 2, not 0 — refuting the claim that
the report returns an empty subject list and all-zero totals whenever the
date has no progress rows. -/
theorem daily_report_empty_claim_false :
    ¬ ((get_daily_report c3DB 1 0).subjects = [] ∧
      (get_daily_report c3DB 1 0).totals.lecture_target = 0 ∧
      (get_daily_report c3DB 1 0).totals.question_target = 0 ∧
      (get_daily_report c3DB 1 0).totals.lecture_actual = 0 ∧
      (get_daily_report c3DB 1 0).totals.question_actual = 0 ∧
      (get_daily_report c3DB 1 0).totals.questions = 0) :=
  fun h => absurd h.1 (by decide)

/-- C3 (amended).  The daily-report computation is total (never raises); on
a date with zero DailyProgress rows for the user its *actual* totals
(lecture actual, question actual, questions) are all zero; it returns one
subject entry per subject of the user (so the subject list is empty, with
all-zero totals and no exercises, exactly when the user has no subjects). -/
theorem daily_report_no_rows (db : DB) (uid d : Nat)
    (h : ∀ r ∈ db.daily_progress, r.user_id = uid → r.date ≠ d) :
    (get_daily_report db uid d).totals.lecture_actual = 0 ∧
    (get_daily_report db uid d).totals.question_actual = 0 ∧
    (get_daily_report db uid d).totals.questions = 0 ∧
    (get_daily_report db uid d).subjects.length =
      (db.subjects.filter (fun s => s.user_id == uid)).length ∧
    ((db.subjects.filter (fun s => s.user_id == uid)) = [] →
      (get_daily_report db uid d).subjects = [] ∧
      (get_daily_report db uid d).exercises = [] ∧
      (get_daily_report db uid d).totals = ⟨0, 0, 0, 0, 0⟩) := by
  have hlk : ∀ sid, dailyLookup db uid sid d = none := by
    intro sid
    apply List.find?_eq_none.mpr
    intro r hr
    by_cases hu : r.user_id = uid
    · have hd := h r hr hu
      simp [hu, hd]
    · simp [hu]
  have hperm := List.perm_insertionSort subjLe
    (db.subjects.filter (fun s => s.user_id == uid))
  by_cases hempty : orderedSubjects db uid = []
  · have hfl : (db.subjects.filter (fun s => s.user_id == uid)).length = 0 := by
      have := hperm.length_eq
      rw [orderedSubjects] at hempty
      rw [hempty] at this
      exact this.symm
    rw [get_daily_report, if_pos hempty]
    refine ⟨rfl, rfl, rfl, by simpa using hfl.symm, fun _ => ⟨rfl, rfl, rfl⟩⟩
  · have hmk : ∀ s, mkSubjProg db uid d s =
        ⟨s.id, s.subject_name, s.daily_lecture_hours, s.daily_question_hours,
          none, none, none, none, none, none, none⟩ := by
      intro s
      rw [mkSubjProg, hlk]
    rw [get_daily_report, if_neg hempty]
    have hla : ((orderedSubjects db uid).map (mkSubjProg db uid d)).filterMap
        (·.lecture_actual) = [] := by
      rw [List.filterMap_map]
      apply List.filterMap_eq_nil_iff.mpr
      intro s _
      simp [hmk s]
    have hqa : ((orderedSubjects db uid).map (mkSubjProg db uid d)).filterMap
        (·.question_actual) = [] := by
      rw [List.filterMap_map]
      apply List.filterMap_eq_nil_iff.mpr
      intro s _
      simp [hmk s]
    have hqs : ((orderedSubjects db uid).map (mkSubjProg db uid d)).filterMap
        (·.questions_solved) = [] := by
      rw [List.filterMap_map]
      apply List.filterMap_eq_nil_iff.mpr
      intro s _
      simp [hmk s]
    refine ⟨?_, ?_, ?_, ?_, ?_⟩
    · show (reportTotals _).lecture_actual = 0
      rw [reportTotals]
      simp [hla]
    · show (reportTotals _).question_actual = 0
      rw [reportTotals]
      simp [hqa]
    · show (reportTotals _).questions = 0
      rw [reportTotals]
      simp [hqs]
    · show ((orderedSubjects db uid).map (mkSubjProg db uid d)).length = _
      rw [List.length_map, orderedSubjects]
      exact hperm.length_eq
    · intro hfe
      exfalso
      apply hempty
      rw [orderedSubjects, hfe]
      rfl

/-- Store for the C3 witness: one subject and one progress row logged on a
different date (day 3) than the reported one (day 5). -/
def c3WitnessDB : DB :=
  { subjects := [⟨1, 1, "Algebra", 1, 100, 2, 1, "Medium", ""⟩],
    daily_progress := [⟨1, 1, 3, 2, 1, 5, false, 0, "", ""⟩] }

/-- C3 witness: the amended report theorem applied to `c3WitnessDB` at
date 5, where the user has no progress rows. -/
theorem daily_report_no_rows_witness :
    (∀ r ∈ c3WitnessDB.daily_progress, r.user_id = 1 → r.date ≠ 5) ∧
    ((get_daily_report c3WitnessDB 1 5).totals.lecture_actual = 0 ∧
    (get_daily_report c3WitnessDB 1 5).totals.question_actual = 0 ∧
    (get_daily_report c3WitnessDB 1 5).totals.questions = 0 ∧
    (get_daily_report c3WitnessDB 1 5).subjects.length =
      (c3WitnessDB.subjects.filter (fun s => s.user_id == 1)).length ∧
    ((c3WitnessDB.subjects.filter (fun s => s.user_id == 1)) = [] →
      (get_daily_report c3WitnessDB 1 5).subjects = [] ∧
      (get_daily_report c3WitnessDB 1 5).exercises = [] ∧
      (get_daily_report c3WitnessDB 1 5).totals = ⟨0, 0, 0, 0, 0⟩)) :=
  ⟨by decide, daily_report_no_rows c3WitnessDB 1 5 (by decide)⟩

/-! ## C4: weekly analysis over a single-day range -/

/-- C4.  Over the single-day range `[d, d]`, with exactly one DailyProgress
entry (on date `d`, one subject, lecture hours 2.0, question hours 1.0,
questions 5), the per-date series of the weekly analysis is a single row for
`d` with total lecture 2.0, total question 1.0, total questions 5 and one
distinct subject studied. -/
theorem weekly_analysis_single_day (db : DB) (uid sid d : Nat) (exd : Bool)
    (exm : Int) (mood notes : String)
    (h : db.daily_progress = [⟨uid, sid, d, 2, 1, 5, exd, exm, mood, notes⟩]) :
    (get_weekly_analysis db uid d d).1 =
      [(d, 2, 1, 5, 1, if exd then (1 : Rat) else 0)] := by
  rw [get_weekly_analysis, h]
  simp only [Nat.add_sub_cancel_left, List.range_succ, List.range_zero,
    List.nil_append]
  cases exd <;>
    simp [dailyAgg, List.dedup_cons_of_not_mem, List.insertionSort,
      List.orderedInsert, List.enum, List.enumFrom]

/-- Store for the C4 witness: the single entry of the claim on day 10. -/
def c4DB : DB :=
  { daily_progress := [⟨1, 1, 10, 2, 1, 5, true, 30, "", ""⟩] }

/-- C4 witness: the single-day weekly analysis applied to `c4DB`. -/
theorem weekly_analysis_single_day_witness :
    c4DB.daily_progress = [⟨1, 1, 10, 2, 1, 5, true, 30, "", ""⟩] ∧
    (get_weekly_analysis c4DB 1 10 10).1 =
      [(10, 2, 1, 5, 1, if true then (1 : Rat) else 0)] :=
  ⟨rfl, weekly_analysis_single_day c4DB 1 1 10 true 30 "" "" rfl⟩

/-! ## C5: duplicate registration rejected, successful registration atomic -/

/-- Evaluation of `register_user` when the username is already taken. -/
theorem register_user_taken (hp : String → String) (db : DB)
    (u p n e ph : String)
    (h : db.users.any (fun x => x.username == u) = true) :
    register_user hp db u p n e ph = (db, false, "Username already exists") := by
  unfold register_user
  rw [if_pos h]

/-- Evaluation of `register_user` when the username is fresh. -/
theorem register_user_fresh (hp : String → String) (db : DB)
    (u p n e ph : String)
    (h : db.users.any (fun x => x.username == u) = false) :
    register_user hp db u p n e ph =
      ({ db with
          users := db.users ++ [⟨db.next_user_id, u, hp p, n, e, ph⟩],
          students := db.students ++
            [⟨db.next_student_id, db.next_user_id, n, e, ph, 6, "07:00", "23:00"⟩],
          next_user_id := db.next_user_id + 1,
          next_student_id := db.next_student_id + 1 },
        true, "Registration successful") := by
  unfold register_user
  rw [if_neg (by rw [h]; exact Bool.false_ne_true)]

/-- C5.  For every pair of registration calls with the same username the
second call fails with the duplicate-username error and changes nothing
(no partial row); and when the username was fresh, the first call appends
exactly one user row holding the hash of the password (never the plaintext
argument itself — the stored value is `hp p1`) and one linked profile row
with defaults target-study-hours 6, wake 07:00, bedtime 23:00. -/
theorem register_duplicate_username (hp : String → String) (db : DB)
    (u p1 n1 e1 ph1 p2 n2 e2 ph2 : String) :
    (register_user hp (register_user hp db u p1 n1 e1 ph1).1 u p2 n2 e2 ph2).2.1
        = false ∧
    (register_user hp (register_user hp db u p1 n1 e1 ph1).1 u p2 n2 e2 ph2).2.2
        = "Username already exists" ∧
    (register_user hp (register_user hp db u p1 n1 e1 ph1).1 u p2 n2 e2 ph2).1
        = (register_user hp db u p1 n1 e1 ph1).1 ∧
    ((∀ ur ∈ db.users, ur.username ≠ u) →
      (register_user hp db u p1 n1 e1 ph1).1.users =
        db.users ++ [⟨db.next_user_id, u, hp p1, n1, e1, ph1⟩] ∧
      (register_user hp db u p1 n1 e1 ph1).1.students =
        db.students ++
          [⟨db.next_student_id, db.next_user_id, n1, e1, ph1, 6, "07:00", "23:00"⟩] ∧
      (register_user hp db u p1 n1 e1 ph1).2.1 = true ∧
      (register_user hp db u p1 n1 e1 ph1).2.2 = "Registration successful") := by
  by_cases hdup : db.users.any (fun x => x.username == u) = true
  · rw [register_user_taken hp db u p1 n1 e1 ph1 hdup,
      register_user_taken hp db u p2 n2 e2 ph2 hdup]
    refine ⟨rfl, rfl, rfl, ?_⟩
    intro hfresh
    exfalso
    rcases List.any_eq_true.mp hdup with ⟨x, hx, hxu⟩
    exact hfresh x hx (by simpa using hxu)
  · have hdup2 := Bool.eq_false_iff.mpr hdup
    rw [register_user_fresh hp db u p1 n1 e1 ph1 hdup2]
    have hsecond : (({ db with
        users := db.users ++ [⟨db.next_user_id, u, hp p1, n1, e1, ph1⟩],
        students := db.students ++
          [⟨db.next_student_id, db.next_user_id, n1, e1, ph1, 6, "07:00", "23:00"⟩],
        next_user_id := db.next_user_id + 1,
        next_student_id := db.next_student_id + 1 } : DB)).users.any
          (fun x => x.username == u) = true := by
      apply List.any_eq_true.mpr
      exact ⟨⟨db.next_user_id, u, hp p1, n1, e1, ph1⟩, by simp, by simp⟩
    rw [register_user_taken hp _ u p2 n2 e2 ph2 hsecond]
    exact ⟨rfl, rfl, rfl, fun _ => ⟨rfl, rfl, rfl, rfl⟩⟩

/-- A concrete stand-in digest function for the credential witnesses. -/
def witnessHash (s : String) : String := s ++ "-digest"

/-- C5 witness: registration twice with username `alice` on an empty store. -/
theorem register_duplicate_username_witness :
    (∀ ur ∈ ({} : DB).users, ur.username ≠ "alice") ∧
    (register_user witnessHash
      (register_user witnessHash {} "alice" "pw" "Alice" "e" "p").1
      "alice" "pw2" "A2" "e2" "p2").2.1 = false ∧
    (register_user witnessHash
      (register_user witnessHash {} "alice" "pw" "Alice" "e" "p").1
      "alice" "pw2" "A2" "e2" "p2").1 =
      (register_user witnessHash {} "alice" "pw" "Alice" "e" "p").1 ∧
    (register_user witnessHash {} "alice" "pw" "Alice" "e" "p").1.users =
      ({} : DB).users ++
        [⟨({} : DB).next_user_id, "alice", witnessHash "pw", "Alice", "e", "p"⟩] ∧
    (register_user witnessHash {} "alice" "pw" "Alice" "e" "p").1.students =
      ({} : DB).students ++
        [⟨({} : DB).next_student_id, ({} : DB).next_user_id, "Alice", "e", "p",
          6, "07:00", "23:00"⟩] := by
  have h := register_duplicate_username witnessHash {} "alice" "pw" "Alice"
    "e" "p" "pw2" "A2" "e2" "p2"
  have hfresh : ∀ ur ∈ ({} : DB).users, ur.username ≠ "alice" := by
    intro ur hur
    cases hur
  exact ⟨hfresh, h.1, h.2.2.1, (h.2.2.2 hfresh).1, (h.2.2.2 hfresh).2.1⟩

/-! ## C6: login failure causes are indistinguishable -/

/-- C6.  Two failing logins — one against a store with no such username and
one against a store where the username exists but the stored hash does not
match — produce the identical visible result (the same generic failure),
for any two runs, stores and inputs. -/
theorem login_failures_indistinguishable (hp1 hp2 : String → String)
    (db1 db2 : DB) (u1 p1 u2 p2 : String) (ur : UserRow)
    (h1 : db1.users.find? (fun x => x.username == u1) = none)
    (h2 : db2.users.find? (fun x => x.username == u2) = some ur)
    (h3 : ur.password ≠ hp2 p2) :
    login_user hp1 db1 u1 p1 = login_user hp2 db2 u2 p2 := by
  have hv : verify_password hp2 ur.password p2 = false := by
    simp [verify_password, h3]
  rw [login_user, h1, login_user, h2]
  simp [hv]

/-- Store for the C6 witness: one user `bob` with a stored digest that
matches no password under `witnessHash`. -/
def c6DB : DB :=
  { users := [⟨1, "bob", "unrelated-digest", "Bob", "", ""⟩] }

/-- C6 witness: an absent-user failure against the empty store equals a
wrong-password failure against `c6DB`. -/
theorem login_failures_indistinguishable_witness :
    (({} : DB).users.find? (fun x => x.username == "carol") = none) ∧
    (c6DB.users.find? (fun x => x.username == "bob") =
      some ⟨1, "bob", "unrelated-digest", "Bob", "", ""⟩) ∧
    (("unrelated-digest" : String) ≠ witnessHash "pw") ∧
    login_user witnessHash {} "carol" "secret" =
      login_user witnessHash c6DB "bob" "pw" :=
  ⟨rfl, by decide, by decide,
    login_failures_indistinguishable witnessHash witnessHash {} c6DB
      "carol" "secret" "bob" "pw" ⟨1, "bob", "unrelated-digest", "Bob", "", ""⟩
      rfl (by decide) (by decide)⟩

/-! ## C7: schema repair is idempotent -/

/-- The starting column set only grows during the repair loop. -/
theorem addCols_subset (tname : String) (orig : List String) :
    ∀ (cols : List (String × String)) (tcols evs : List String),
      tcols ⊆ (addCols tname orig tcols evs cols).1 := by
  intro cols
  induction cols with
  | nil => intro tcols evs; simp [addCols]
  | cons c0 rest ih =>
    intro tcols evs
    simp only [addCols]
    by_cases h1 : c0.1 ∈ orig
    · rw [if_pos h1]; exact ih tcols evs
    · rw [if_neg h1]
      by_cases h2 : c0.1 ∈ tcols
      · rw [if_pos h2]; exact ih tcols evs
      · rw [if_neg h2]
        by_cases h3 : alterAddable c0.2 = true
        · rw [if_pos h3]
          exact (List.subset_append_left _ _).trans (ih _ _)
        · rw [if_neg h3]
          exact ih tcols evs

/-- After the repair loop every required column is either present or is one
whose `ALTER` SQLite rejects (non-constant default), the failure swallowed. -/
theorem addCols_covered (tname : String) (orig : List String) :
    ∀ (cols : List (String × String)) (tcols evs : List String),
      orig ⊆ tcols → ∀ c ∈ cols,
        c.1 ∈ (addCols tname orig tcols evs cols).1 ∨
          alterAddable c.2 = false := by
  intro cols
  induction cols with
  | nil => intro tcols evs _ c hc; cases hc
  | cons c0 rest ih =>
    intro tcols evs hsub c hc
    simp only [addCols]
    rcases List.mem_cons.mp hc with hh | hc2
    · subst hh
      by_cases h1 : c.1 ∈ orig
      · rw [if_pos h1]
        exact Or.inl (addCols_subset tname orig rest tcols evs (hsub h1))
      · rw [if_neg h1]
        by_cases h2 : c.1 ∈ tcols
        · rw [if_pos h2]
          exact Or.inl (addCols_subset tname orig rest tcols evs h2)
        · rw [if_neg h2]
          by_cases h3 : alterAddable c.2 = true
          · rw [if_pos h3]
            exact Or.inl
              (addCols_subset tname orig rest (tcols ++ [c.1]) _ (by simp))
          · rw [if_neg h3]
            exact Or.inr (Bool.eq_false_iff.mpr h3)
    · by_cases h1 : c0.1 ∈ orig
      · rw [if_pos h1]; exact ih tcols evs hsub c hc2
      · rw [if_neg h1]
        by_cases h2 : c0.1 ∈ tcols
        · rw [if_pos h2]; exact ih tcols evs hsub c hc2
        · rw [if_neg h2]
          by_cases h3 : alterAddable c0.2 = true
          · rw [if_pos h3]
            exact ih _ _ (hsub.trans (List.subset_append_left _ _)) c hc2
          · rw [if_neg h3]
            exact ih tcols evs hsub c hc2

/-- When every required column is already in the pre-loop column list or is
one whose `ALTER` fails (silently, again), the repair loop changes nothing
and reports nothing. -/
theorem addCols_stable (tname : String) (orig : List String) :
    ∀ (cols : List (String × String)) (tcols evs : List String),
      (∀ c ∈ cols, c.1 ∈ orig ∨ alterAddable c.2 = false) →
        addCols tname orig tcols evs cols = (tcols, evs) := by
  intro cols
  induction cols with
  | nil => intro tcols evs _; simp [addCols]
  | cons c0 rest ih =>
    intro tcols evs hall
    have hrest : ∀ c ∈ rest, c.1 ∈ orig ∨ alterAddable c.2 = false :=
      fun c hc => hall c (List.mem_cons_of_mem c0 hc)
    simp only [addCols]
    rcases hall c0 (List.mem_cons_self c0 rest) with h1 | h1
    · rw [if_pos h1]
      exact ih tcols evs hrest
    · by_cases h0 : c0.1 ∈ orig
      · rw [if_pos h0]
        exact ih tcols evs hrest
      · rw [if_neg h0]
        by_cases h2 : c0.1 ∈ tcols
        · rw [if_pos h2]
          exact ih tcols evs hrest
        · rw [if_neg h2, if_neg (by rw [h1]; exact Bool.false_ne_true)]
          exact ih tcols evs hrest

/-- A second repair pass over one table adds nothing and reports nothing. -/
theorem repairTable_idem (tname : String) (cols : List (String × String))
    (st : Option (List String)) :
    repairTable tname cols (repairTable tname cols st).1 =
      ((repairTable tname cols st).1, []) := by
  cases st with
  | none => rfl
  | some existing =>
    show repairTable tname cols
      (some (addCols tname existing existing [] cols).1) = _
    simp only [repairTable]
    rw [addCols_stable tname _ cols _ []
      (fun c hc => addCols_covered tname existing cols existing []
        (List.Subset.refl _) c hc)]

/-- C7.  Schema repair is idempotent in its observable events: run twice in
a row with no writes in between, the second run reports an empty
`repairs_made` list (zero column-added events): every column the first run
added is already present, and a column the first run could not add (its
`ALTER` rejected for a non-constant default) fails silently again, still
producing no event. -/
theorem repair_database_idempotent (st : SchemaState) :
    (repair_database (repair_database st).1).2 = [] := by
  simp only [repair_database]
  rw [repairTable_idem, repairTable_idem, repairTable_idem, repairTable_idem,
    repairTable_idem]
  rfl

/-! ## C8: per-user subject-name uniqueness -/

/-- Store for the C8 counterexample: two subjects of user 1 with distinct
names. -/
def c8DB : DB :=
  { subjects := [⟨1, 1, "Mathematics", 1, 100, 2, 1, "Medium", ""⟩,
                 ⟨2, 1, "Physics", 1, 100, 2, 1, "Medium", ""⟩] }

/-- C8 counterexample.  The edit-subject update has no duplicate check:
renaming subject 2 (`Physics`) of user 1 to `Mathematics` succeeds and
leaves user 1 with two subjects named `Mathematics`, so the claimed
invariant is not preserved by every subject-mutating operation. -/
theorem subject_rename_breaks_uniqueness :
    subjectNamesUnique c8DB 1 ∧
    ¬ subjectNamesUnique
        (update_subject c8DB 2 1 "Mathematics" 1 100 2 1 "Medium" "") 1 := by
  constructor
  · decide
  · decide

/-- C8 (amended).  Adding a subject whose name duplicates an existing
subject of the same user is rejected (application-level check; the table has
no name-level constraint) with no row inserted, and the add operation
preserves per-user name uniqueness; the edit-subject update, however,
performs no duplicate check and can introduce a duplicate (see the
counterexample), so the invariant is maintained only by the add path. -/
theorem add_subject_duplicate_rejected (db : DB) (uid : Nat) (name : String)
    (w t dl dq : Rat) (diff td : String) :
    ((∃ s ∈ db.subjects, s.user_id = uid ∧ s.subject_name = name) →
      add_subject db uid name w t dl dq diff td = (db, false)) ∧
    (subjectNamesUnique db uid →
      subjectNamesUnique (add_subject db uid name w t dl dq diff td).1 uid) := by
  by_cases hdup : 0 < (db.subjects.filter
      (fun s => s.user_id == uid && s.subject_name == name)).length
  · constructor
    · intro _
      unfold add_subject
      rw [if_pos hdup]
    · intro hu
      unfold add_subject
      rw [if_pos hdup]
      exact hu
  · have hnone : ∀ s ∈ db.subjects, ¬(s.user_id = uid ∧ s.subject_name = name) := by
      intro s hs hcon
      apply hdup
      have : s ∈ db.subjects.filter
          (fun s => s.user_id == uid && s.subject_name == name) := by
        apply List.mem_filter.mpr
        exact ⟨hs, by simp [hcon.1, hcon.2]⟩
      exact List.length_pos.mpr (List.ne_nil_of_mem this)
    constructor
    · rintro ⟨s, hs, hu, hn⟩
      exact absurd ⟨hu, hn⟩ (hnone s hs)
    · intro huniq
      unfold add_subject
      rw [if_neg hdup]
      show (((db.subjects ++ ([⟨db.next_subject_id, uid, name, w, t, dl, dq,
        diff, td⟩] : List SubjectRow)).filter
          (fun s => s.user_id == uid)).map (·.subject_name)).Nodup
      rw [List.filter_append, List.map_append]
      have hone : (([⟨db.next_subject_id, uid, name, w, t, dl, dq, diff, td⟩] :
          List SubjectRow).filter (fun s => s.user_id == uid)).map
            (·.subject_name) = [name] := by
        simp
      rw [hone]
      rw [List.nodup_append]
      refine ⟨huniq, List.nodup_singleton name, ?_⟩
      intro x hx hx1
      have hxname : x = name := by simpa using hx1
      subst hxname
      rcases List.mem_map.mp hx with ⟨s, hsf, hsn⟩
      have hsm := List.mem_filter.mp hsf
      exact hnone s hsm.1 ⟨by simpa using hsm.2, hsn⟩

/-- Store for the C8 witness: one subject `Chemistry` of user 1. -/
def c8WitnessDB : DB :=
  { subjects := [⟨1, 1, "Chemistry", 1, 100, 2, 1, "Medium", ""⟩],
    next_subject_id := 2 }

/-- C8 witness: adding a duplicate `Chemistry` for user 1 is rejected and
uniqueness is preserved for the concrete store. -/
theorem add_subject_duplicate_rejected_witness :
    (∃ s ∈ c8WitnessDB.subjects, s.user_id = 1 ∧ s.subject_name = "Chemistry") ∧
    add_subject c8WitnessDB 1 "Chemistry" 1 100 2 1 "Medium" "" =
      (c8WitnessDB, false) ∧
    subjectNamesUnique c8WitnessDB 1 ∧
    subjectNamesUnique
      (add_subject c8WitnessDB 1 "Chemistry" 1 100 2 1 "Medium" "").1 1 := by
  have h := add_subject_duplicate_rejected c8WitnessDB 1 "Chemistry" 1 100 2 1
    "Medium" ""
  have hex : ∃ s ∈ c8WitnessDB.subjects, s.user_id = 1 ∧
      s.subject_name = "Chemistry" :=
    ⟨⟨1, 1, "Chemistry", 1, 100, 2, 1, "Medium", ""⟩, by decide, by decide, rfl⟩
  have hu : subjectNamesUnique c8WitnessDB 1 := by decide
  exact ⟨hex, h.1 hex, hu, h.2 hu⟩

/-! ## C9: schedule ordering -/

/-- Store for the C9 example: two subjects of user 1. -/
def c9BaseDB : DB :=
  { subjects := [⟨1, 1, "Mathematics", 1, 100, 2, 1, "Medium", ""⟩,
                 ⟨2, 1, "Physics", 1, 100, 2, 1, "Medium", ""⟩] }

/-- Schedule form data of the C9 example: a Monday Morning Mathematics slot
and a Monday Evening Physics slot. -/
def c9Items : List ScheduleItem :=
  [⟨"Monday", "Mathematics", "09:00", "10:00", "Morning"⟩,
   ⟨"Monday", "Physics", "18:00", "20:00", "Evening"⟩]

/-- The C9 store after saving the two Monday slots. -/
def c9DB : DB := save_study_schedule c9BaseDB 1 c9Items

/-- C9.  `get_study_schedule` returns the user's slots joined with subject
names sorted by canonical weekday order, then priority ascending, then start
time ascending (`schedLe`), containing exactly the join rows; in particular,
after saving the two Monday slots (Morning/Mathematics priority 1,
Evening/Physics priority 3), Mathematics is returned before Physics. -/
theorem get_schedule_ordered (db : DB) (uid : Nat) :
    ((get_study_schedule db uid).Sorted schedLe ∧
      (get_study_schedule db uid).Perm (scheduleJoinRows db uid)) ∧
    get_study_schedule c9DB 1 =
      [⟨"Monday", "Mathematics", "09:00", "10:00", "Morning", 1⟩,
       ⟨"Monday", "Physics", "18:00", "20:00", "Evening", 3⟩] := by
  refine ⟨⟨List.sorted_insertionSort schedLe _,
    List.perm_insertionSort schedLe _⟩, ?_⟩
  decide

/-! ## C10: inner join silently omits slots with a dangling subject id -/

/-- C10.  Deleting a subject leaves the stored schedule slots untouched
(no cascade); a slot whose subject id resolves to no subject is silently
omitted from `get_study_schedule` (prepending such a slot changes nothing);
and every returned row carries the name of an existing subject, coming from
a stored slot of the user whose subject id resolves to that subject. -/
theorem schedule_slots_orphaned (db : DB) (uid sid : Nat) (ss : ScheduleRow) :
    (delete_subject db sid uid).study_schedule = db.study_schedule ∧
    ((∀ s ∈ db.subjects, s.id ≠ ss.subject_id) →
      get_study_schedule
          { db with study_schedule := ss :: db.study_schedule } uid =
        get_study_schedule db uid) ∧
    (∀ out ∈ get_study_schedule db uid,
      ∃ s ∈ db.subjects, ∃ sr ∈ db.study_schedule,
        sr.user_id = uid ∧ s.id = sr.subject_id ∧
        out = ⟨sr.day_of_week, s.subject_name, sr.start_time, sr.end_time,
          sr.session_type, sr.priority⟩) := by
  refine ⟨rfl, ?_, ?_⟩
  · intro h
    have hjoin : scheduleJoinRows
        { db with study_schedule := ss :: db.study_schedule } uid =
          scheduleJoinRows db uid := by
      show ((ss :: db.study_schedule).filter
          (fun r => r.user_id == uid)).flatMap _ = _
      rw [List.filter_cons]
      by_cases hu : (ss.user_id == uid) = true
      · rw [if_pos (by simpa using hu), List.flatMap_cons]
        have hfe : db.subjects.filter (fun s => s.id == ss.subject_id) = [] := by
          apply List.filter_eq_nil_iff.mpr
          intro s hs
          simpa using h s hs
        rw [hfe]
        rfl
      · rw [if_neg (by simpa using hu)]
        rfl
    rw [get_study_schedule, hjoin, get_study_schedule]
  · intro out hout
    have hmem : out ∈ scheduleJoinRows db uid :=
      (List.perm_insertionSort schedLe _).mem_iff.mp hout
    rcases List.mem_flatMap.mp hmem with ⟨sr, hsr, hout2⟩
    have hsrm := List.mem_filter.mp hsr
    rcases List.mem_map.mp hout2 with ⟨s, hsf, hseq⟩
    have hsm := List.mem_filter.mp hsf
    exact ⟨s, hsm.1, sr, hsrm.1, by simpa using hsrm.2, by simpa using hsm.2,
      hseq.symm⟩

/-- Store for the C10 witness: one subject and one resolvable slot. -/
def c10DB : DB :=
  { subjects := [⟨1, 1, "Mathematics", 1, 100, 2, 1, "Medium", ""⟩],
    study_schedule := [⟨1, "Monday", 1, "09:00", "10:00", "Morning", 1⟩] }

/-- A slot whose subject id 99 resolves to no subject of `c10DB`. -/
def c10Orphan : ScheduleRow := ⟨1, "Tuesday", 99, "09:00", "10:00", "Morning", 1⟩

/-- C10 witness: the orphaned-slot theorem applied to `c10DB` with the
dangling slot `c10Orphan` and the returned Mathematics row. -/
theorem schedule_slots_orphaned_witness :
    (delete_subject c10DB 1 1).study_schedule = c10DB.study_schedule ∧
    (∀ s ∈ c10DB.subjects, s.id ≠ c10Orphan.subject_id) ∧
    get_study_schedule
        { c10DB with study_schedule := c10Orphan :: c10DB.study_schedule } 1 =
      get_study_schedule c10DB 1 ∧
    (⟨"Monday", "Mathematics", "09:00", "10:00", "Morning", 1⟩ : ScheduleOut) ∈
      get_study_schedule c10DB 1 ∧
    (∃ s ∈ c10DB.subjects, ∃ sr ∈ c10DB.study_schedule, sr.user_id = 1 ∧
      s.id = sr.subject_id ∧
      (⟨"Monday", "Mathematics", "09:00", "10:00", "Morning", 1⟩ : ScheduleOut)
        = ⟨sr.day_of_week, s.subject_name, sr.start_time, sr.end_time,
          sr.session_type, sr.priority⟩) := by
  have h := schedule_slots_orphaned c10DB 1 1 c10Orphan
  exact ⟨h.1, by decide, h.2.1 (by decide), by decide, h.2.2 _ (by decide)⟩

end StudentManager
